import Mathlib

/-!
# Mediquick fulfillment state machine and coin ledger — verification

Shallow embedding of the fulfillment core of `src/App.js`:
the transition handlers (`handleTakeOrderAppointment`,
`handleConfirmTransferAndPayment`, `handleAcceptOffer`,
`handleDonateCoins`), the QR token mint helpers, and the coin ledger
mutations.  Firestore documents become Lean structures; each per-document
collection becomes a list (or, for profile coin fields, a partial map
`String → Option Nat`); `updateDoc` becomes an update-by-id on the list;
`addDoc` on a transactions collection becomes a list append.  Timestamps
(`serverTimestamp()`) are supplied by an external clock and carry no logic,
so they are omitted.

Two store behaviours matter and are modelled explicitly:

* The app initializes the store with the default `getFirestore()`
  (src/App.js:113), without `ignoreUndefinedProperties`.  Under the default
  configuration the SDK rejects any `updateDoc` whose field map contains an
  `undefined` value, throwing client-side ("Unsupported field value:
  undefined") before any write.  The confirmation handler's status update
  (src/App.js:1091-1097) always contains exactly one such value
  (`paymentConfirmed` is `undefined` for orders, `cashReceived` for
  appointments), so every validated confirmation throws there, is caught
  (src/App.js:1140), and leaves all state unchanged; this is modelled as
  the error `Err.UnsupportedFieldValue`.

* Orders live in per-user collections `users/{uid}/orders` (created at
  src/App.js:1015 and src/App.js:1751, always in the creating customer's
  collection with `customerId` equal to that user).  The confirm handler
  reads the requester's own collection (src/App.js:1045), modelled by
  restricting the lookup to orders owned by the requester; the take handler
  reads the (hypothetical, per the source's own comments) global `allOrders`
  collection, modelled as a lookup over all orders.
-/

namespace Mediquick

/-- Order status strings written/compared by the code:
`pending_salesperson_pickup`, `in_delivery`, `delivered`,
`purchased_by_doctor`. -/
inductive OrderStatus
  | pending_salesperson_pickup
  | in_delivery
  | delivered
  | purchased_by_doctor
deriving DecidableEq, Repr

/-- Appointment (patient offer) status strings written/compared by the code:
`pending`, `accepted`, `assigned_to_salesperson`, `completed`. -/
inductive OfferStatus
  | pending
  | accepted
  | assigned_to_salesperson
  | completed
deriving DecidableEq, Repr

/-- Order document (created at src/App.js:1015 and src/App.js:1751). -/
structure Order where
  id : String
  productId : String
  productName : String
  customerId : String
  salespersonId : Option String := none
  status : OrderStatus
  cashReceived : Bool := false
  qrContent : Option String := none
deriving DecidableEq, Repr

/-- Patient offer (appointment) document (created at src/App.js:1195). -/
structure PatientOffer where
  id : String
  patientId : String
  doctorId : String
  reason : String
  status : OfferStatus
  salespersonId : Option String := none
  paymentConfirmed : Bool := false
  qrContent : Option String := none
deriving DecidableEq, Repr

/-- Product catalog entry; `coinsAssigned` is the delivery incentive. -/
structure Product where
  id : String
  name : String
  coinsAssigned : Nat
deriving DecidableEq, Repr

/-- Ledger entry type strings written by the code. -/
inductive TxType
  | coin_transfer
  | checkup_payment
  | donation
deriving DecidableEq, Repr

/-- Ledger entry (the documents appended by `addDoc` on a
`transactions` collection). -/
structure Transaction where
  type : TxType
  amount : Nat
  sourceId : String
  targetId : String
  orderId : Option String := none
  patientOfferId : Option String := none
  description : String
deriving DecidableEq, Repr

/-- Parsed QR token content: the object produced by `JSON.parse(qrCodeInput)`
and destructured as `{ orderId, patientOfferId, salespersonId }` (or with
`doctorId`).  A missing key is `none`. -/
structure QrData where
  orderId : Option String := none
  patientOfferId : Option String := none
  salespersonId : Option String := none
  doctorId : Option String := none
deriving DecidableEq, Repr

/-- The fulfillment state: the record collections, the product catalog,
the per-user `coins` profile field (`none` = profile/field absent), and the
append-only transaction ledger (all users' transaction collections merged;
the owning collection is recoverable from `targetId`). -/
structure AppState where
  orders : List Order
  patientOffers : List PatientOffer
  products : List Product
  coins : String → Option Nat
  transactions : List Transaction

/-- Error taxonomy of the failure branches (each handler branch that calls
`displayMessage(..., 'error')` and returns without writing), plus
`UnsupportedFieldValue`: the client-side exception the default-configured
Firestore SDK throws when an `updateDoc` field map contains `undefined`
(caught by the handler's catch block, so state is unchanged). -/
inductive Err
  | NotFound
  | Unauthorized
  | InvalidState
  | AlreadyAssigned
  | MalformedToken
  | ValidationError
  | UnsupportedFieldValue
deriving DecidableEq, Repr

/-- JS truthiness of an optional string value: `undefined` and the empty
string are falsy (`if (orderId)`, `if (data.salespersonId)`). -/
def jsTruthy : Option String → Bool
  | some s => s ≠ ""
  | none => false

/-- Update the document with the given id in a collection, leaving every
other document unchanged (the effect of `updateDoc` on a doc ref). -/
def updateById (idOf : α → String) (xs : List α) (i : String) (f : α → α) : List α :=
  xs.map fun x => if idOf x == i then f x else x

/-- Lookup by document id on a collection (`getDoc` / query-by-id). -/
def findById (idOf : α → String) (xs : List α) (i : String) : Option α :=
  xs.find? fun x => idOf x == i

def findOrder (st : AppState) (oid : String) : Option Order :=
  findById Order.id st.orders oid

def findOffer (st : AppState) (pid : String) : Option PatientOffer :=
  findById PatientOffer.id st.patientOffers pid

/-- Catalog lookup `products.find(p => p.id === productId)` (src/App.js:1101). -/
def findProduct (st : AppState) (pid : String) : Option Product :=
  findById Product.id st.products pid

/-- Lookup of an order document in the requester's own collection
`artifacts/{appId}/users/{userId}/orders` (the path built at
src/App.js:1045).  Every order the app creates is written into its
customer's collection with `customerId` set to that user, so a document is
found there exactly when an order with that id is owned by the requester;
a non-owner's lookup misses and yields NotFound. -/
def findUserOrder (st : AppState) (userId oid : String) : Option Order :=
  findById Order.id (st.orders.filter fun o => o.customerId == userId) oid

def orderStatus (st : AppState) (oid : String) : Option OrderStatus :=
  (findOrder st oid).map Order.status

def offerStatus (st : AppState) (pid : String) : Option OfferStatus :=
  (findOffer st pid).map PatientOffer.status

/-- The balance write `coins: (await getDoc(ref)).data()?.coins + amt || amt`
(src/App.js:1105, 1125, 1166): if the profile or its `coins` field is absent
the read gives `undefined`, `undefined + amt` is `NaN`, and `NaN || amt`
falls back to `amt`; otherwise the result is the old balance plus `amt`
(for `amt = 0` and balance `0`, `0 || 0` is also `0`). -/
def creditCoins (coins : String → Option Nat) (uid : String) (amt : Nat) :
    String → Option Nat :=
  fun i => if i = uid then some ((coins uid).getD 0 + amt) else coins i

/-- Embedding of `generateQRCodeContent` (src/App.js:46): `JSON.stringify(data)`, with
keys in insertion order (`orderId`, `patientOfferId`, `salespersonId`,
`doctorId` — every call site inserts its present keys in this order) and
`undefined` keys omitted. -/
def generateQRCodeContent (d : QrData) : String :=
  let field (k v : String) : String := "\"" ++ k ++ "\":\"" ++ v ++ "\""
  let fields : List String :=
    (match d.orderId with | some v => [field "orderId" v] | none => []) ++
    (match d.patientOfferId with | some v => [field "patientOfferId" v] | none => []) ++
    (match d.salespersonId with | some v => [field "salespersonId" v] | none => []) ++
    (match d.doctorId with | some v => [field "doctorId" v] | none => [])
  "\x7b" ++ String.intercalate "," fields ++ "\x7d"

/-- Embedding of `handleTakeOrderAppointment` (src/App.js:1497–1576): a salesperson
claims an order or appointment by presenting a QR token.  The order branch
reads the (hypothetical, per the source's own comments) global `allOrders`
collection; both it and the offer branch are modelled as lookup-by-id over
the single modelled collection.  Returns the next state and the error of
the failure branch taken, if any.  An unparsable `qrCodeInput` throws in
`JSON.parse` and is caught (MalformedToken); here the token arrives
pre-parsed, so only the both-keys-missing shape reaches the final branch. -/
def handleTakeOrderAppointment (st : AppState) (userId : String) (qr : QrData) :
    AppState × Option Err :=
  if jsTruthy qr.orderId then
    let orderId := qr.orderId.getD ""
    match findOrder st orderId with
    | none => (st, some Err.NotFound)      -- "Order not found or not accessible."
    | some data =>
      if data.status ≠ OrderStatus.pending_salesperson_pickup then
        (st, some Err.InvalidState)        -- "Order is not pending salesperson pickup."
      else if jsTruthy data.salespersonId then
        (st, some Err.AlreadyAssigned)     -- "This has already been assigned to a salesperson."
      else
        ({ st with orders := updateById Order.id st.orders orderId fun o =>
            { o with salespersonId := some userId,
                     status := OrderStatus.in_delivery } }, none)
  else if jsTruthy qr.patientOfferId then
    let patientOfferId := qr.patientOfferId.getD ""
    match findOffer st patientOfferId with
    | none => (st, some Err.NotFound)      -- "Order/Appointment not found."
    | some data =>
      if data.status ≠ OfferStatus.accepted then
        (st, some Err.InvalidState)        -- "Appointment is not in 'accepted' status."
      else if jsTruthy data.salespersonId then
        (st, some Err.AlreadyAssigned)     -- "This has already been assigned to a salesperson."
      else
        ({ st with patientOffers := (updateById PatientOffer.id st.patientOffers patientOfferId
            fun a => { a with salespersonId := some userId,
                              status := OfferStatus.assigned_to_salesperson }) }, none)
  else (st, some Err.MalformedToken)       -- "Invalid QR code content."

/-- Embedding of `handleConfirmTransferAndPayment` (src/App.js:1030-1144):
the owning customer/patient presents the salesperson's QR token to confirm
delivery (order) or checkup completion (appointment).  The validation
failures (src/App.js:1059-1088) are reachable and return with no write.
A request that passes them reaches the status `updateDoc`
(src/App.js:1091-1097), whose field map always contains one `undefined`
value: `cashReceived: type === 'order' ? true : undefined` and
`paymentConfirmed: type === 'appointment' ? true : undefined` leave
`paymentConfirmed` undefined for orders and `cashReceived` undefined for
appointments.  Under the app's default `getFirestore()` configuration
(src/App.js:113) the SDK rejects the call client-side and throws before
any write; the exception is caught at src/App.js:1140.  So no confirmation
ever succeeds: the status write, the coin credit and the ledger append
(src/App.js:1091-1136) are unreachable, and every validated request fails
with `UnsupportedFieldValue`, state unchanged.  The order branch looks the
document up in the requester's own `users/{userId}/orders` collection
(src/App.js:1045), which makes the `customerId !== userId` check at
src/App.js:1067 unreachable for app-created orders (kept here verbatim). -/
def handleConfirmTransferAndPayment (st : AppState) (userId : String) (qr : QrData) :
    AppState × Option Err :=
  if jsTruthy qr.orderId then
    match findUserOrder st userId (qr.orderId.getD "") with
    | none => (st, some Err.NotFound)      -- "Order/Appointment not found."
    | some data =>
      if data.customerId ≠ userId then
        (st, some Err.Unauthorized)        -- "This order is not for your account."
      else if data.status ≠ OrderStatus.in_delivery then
        (st, some Err.InvalidState)        -- "Order is not in 'in delivery' status."
      else if data.salespersonId ≠ qr.salespersonId then
        (st, some Err.Unauthorized)        -- "QR code does not match the assigned salesperson."
      else
        -- the status updateDoc throws: paymentConfirmed is undefined for orders
        (st, some Err.UnsupportedFieldValue)
  else if jsTruthy qr.patientOfferId then
    match findOffer st (qr.patientOfferId.getD "") with
    | none => (st, some Err.NotFound)      -- "Order/Appointment not found."
    | some data =>
      if data.patientId ≠ userId then
        (st, some Err.Unauthorized)        -- "This appointment is not for your account."
      else if data.status ≠ OfferStatus.assigned_to_salesperson then
        (st, some Err.InvalidState)        -- "Appointment is not in 'assigned to salesperson' status."
      else if data.salespersonId ≠ qr.salespersonId then
        (st, some Err.Unauthorized)        -- "QR code does not match the assigned salesperson."
      else
        -- the status updateDoc throws: cashReceived is undefined for appointments
        (st, some Err.UnsupportedFieldValue)
  else (st, some Err.MalformedToken)       -- "Invalid QR code content."

/-- Embedding of `handleAcceptOffer` (src/App.js:1767–1784): the doctor-accept handler.
It writes `status: 'accepted'` on the offer document with no check of the
offer's current status and no check that `userId` equals the offer's
`doctorId` (the surrounding UI only lists offers filtered to
`status === 'pending' && doctorId === userId`).  `updateDoc` on a missing
document rejects and is caught, leaving state unchanged.  On success it
also mints the salesperson QR `{ patientOfferId, doctorId: userId }`,
returned as the second component. -/
def handleAcceptOffer (st : AppState) (userId : String) (offerId : String) :
    (AppState × Option Err) × Option String :=
  match findOffer st offerId with
  | none => ((st, some Err.NotFound), none)
  | some _ =>
      (({ st with patientOffers := (updateById PatientOffer.id st.patientOffers offerId
            fun a => { a with status := OfferStatus.accepted }) }, none),
       some (generateQRCodeContent
         { patientOfferId := some offerId, doctorId := some userId }))

/-- Leading decimal digits of a character list as a number; `none` if the
list does not start with a digit. -/
def leadingDigits (cs : List Char) : Option Nat :=
  let ds := cs.takeWhile Char.isDigit
  if ds.isEmpty then none
  else some (ds.foldl (fun acc c => acc * 10 + (c.toNat - 48)) 0)

/-- Embedding of `parseInt(s)` as used at src/App.js:1152 on the donation amount field:
skip leading whitespace, take an optional sign and the maximal prefix of
decimal digits; `none` models a `NaN` result. -/
def jsParseInt (s : String) : Option Int :=
  let cs := s.toList.dropWhile fun c => c = ' ' ∨ c = '\t' ∨ c = '\n' ∨ c = '\r'
  match cs with
  | '-' :: rest => (leadingDigits rest).map fun n => -(n : Int)
  | '+' :: rest => (leadingDigits rest).map fun n => (n : Int)
  | _ => (leadingDigits cs).map fun n => (n : Int)

/-- Embedding of `handleDonateCoins` (src/App.js:1146–1186): a customer donates coins to
a chosen institution.  The empty-field guard and the
`isNaN(amount) || amount <= 0` check both fail with a validation error
before any write; on success the institution's balance is credited and one
`donation` transaction is appended.  The donor is not debited (the source's
own comment: customers have no coin balance). -/
def handleDonateCoins (st : AppState) (userId : String)
    (selectedInstitutionForDonation : String) (amountToDonate : String) :
    AppState × Option Err :=
  if userId = "" ∨ selectedInstitutionForDonation = "" ∨ amountToDonate = "" then
    (st, some Err.ValidationError)   -- "Please select an institution and enter a valid amount."
  else
    match jsParseInt amountToDonate with
    | none => (st, some Err.ValidationError)  -- isNaN(amount): "must be a positive number."
    | some a =>
      if a ≤ 0 then
        (st, some Err.ValidationError)        -- "Amount to donate must be a positive number."
      else
        let amount := a.toNat
        ({ st with
            coins := creditCoins st.coins selectedInstitutionForDonation amount,
            transactions := st.transactions ++ [{
              type := TxType.donation,
              amount := amount,
              sourceId := userId,
              targetId := selectedInstitutionForDonation,
              description := "Donation from customer " ++ userId }] }, none)

/-- A row of the salesperson's assigned-items table (an order or offer
document as rendered); order documents have no `orderId` field, so for them
`item.orderId` is `undefined`. -/
structure AssignedItem where
  id : String
  orderId : Option String := none
deriving DecidableEq, Repr

/-- Embedding of `handleGenerateCustomerQr` (src/App.js:1578–1582): mint the customer
handoff token for an assigned item.  Pure with respect to the fulfillment
state — it only serializes current reference fields (the source writes only
the component-local modal/QR-content UI state).  Returned with the
(unchanged) state to make the frame property statable. -/
def handleGenerateCustomerQr (st : AppState) (userId : String) (item : AssignedItem) :
    String × AppState :=
  (generateQRCodeContent
    (if jsTruthy item.orderId then
      { orderId := item.orderId, salespersonId := some userId }
     else
      { patientOfferId := some item.id, salespersonId := some userId }), st)

/-- Embedding of `handleGenerateSalespersonQr` (src/App.js:1786–1790): mint the
salesperson handoff token `{ patientOfferId, doctorId: userId }` for an
accepted appointment; pure with respect to the fulfillment state. -/
def handleGenerateSalespersonQr (st : AppState) (userId : String) (offerId : String) :
    String × AppState :=
  (generateQRCodeContent { patientOfferId := some offerId, doctorId := some userId }, st)

/-! ## Helper lemmas -/

/-- Looking up the updated id after `updateById` finds the updated document,
provided the update preserves the document id (every handler update does). -/
theorem findById_updateById (idOf : α → String) (xs : List α) (i : String) (f : α → α)
    (hf : ∀ x, idOf (f x) = idOf x) :
    findById idOf (updateById idOf xs i f) i = (findById idOf xs i).map f := by
  induction xs with
  | nil => rfl
  | cons x xs ih =>
    by_cases h : (idOf x == i) = true
    · have hfx : (idOf (f x) == i) = true := by rw [hf]; exact h
      simp only [updateById, List.map_cons, findById, if_pos h] at *
      rw [List.find?_cons_of_pos, List.find?_cons_of_pos]
      · rfl
      · exact h
      · exact hfx
    · have hb : (idOf x == i) = false := by simpa using h
      simp only [updateById, List.map_cons, findById, if_neg h] at *
      rw [List.find?_cons_of_neg, List.find?_cons_of_neg]
      · exact ih
      · simp [hb]
      · simp [hb]

theorem findOrder_update (st : AppState) (oid : String) (f : Order → Order)
    (hf : ∀ o, (f o).id = o.id) :
    findOrder { st with orders := updateById Order.id st.orders oid f } oid
      = (findOrder st oid).map f :=
  findById_updateById Order.id st.orders oid f hf

theorem findOffer_update (st : AppState) (pid : String) (f : PatientOffer → PatientOffer)
    (hf : ∀ a, (f a).id = a.id) :
    findOffer { st with patientOffers := updateById PatientOffer.id st.patientOffers pid f } pid
      = (findOffer st pid).map f :=
  findById_updateById PatientOffer.id st.patientOffers pid f hf

/-- A document found in the requester's own orders collection is owned by
the requester. -/
theorem findUserOrder_customerId (st : AppState) (userId oid : String) (o : Order)
    (h : findUserOrder st userId oid = some o) : o.customerId = userId := by
  unfold findUserOrder findById at h
  have hmem := List.mem_of_find?_eq_some h
  have hq := (List.mem_filter.mp hmem).2
  simpa using hq

/-- If no order with the given id is owned by the requester, the lookup in
the requester's own orders collection misses. -/
theorem findUserOrder_eq_none (st : AppState) (userId oid : String)
    (h : ∀ o ∈ st.orders, o.id = oid → o.customerId ≠ userId) :
    findUserOrder st userId oid = none := by
  unfold findUserOrder findById
  rw [List.find?_eq_none]
  intro x hx hid
  rcases List.mem_filter.mp hx with ⟨hmem, hq⟩
  exact h x hmem (by simpa using hid) (by simpa using hq)

/-! ## Claims -/

/-- C7: a customer C donating amount 20 to an institution I whose coin
balance was previously 0 leaves I's balance at 20, appends exactly one
`donation` Transaction with sourceId C, targetId I and amount 20, and
debits no other account (in particular not the donor's). -/
theorem C7_donation_credits_institution (st : AppState) (C I : String)
    (hC : C ≠ "") (hI : I ≠ "")
    (hbal : st.coins I = some 0) :
    (handleDonateCoins st C I "20").2 = none
    ∧ (handleDonateCoins st C I "20").1.coins I = some 20
    ∧ (handleDonateCoins st C I "20").1.transactions
        = st.transactions ++ [{
            type := TxType.donation, amount := 20, sourceId := C,
            targetId := I, description := "Donation from customer " ++ C }]
    ∧ ∀ u, u ≠ I → (handleDonateCoins st C I "20").1.coins u = st.coins u := by
  have h20 : jsParseInt "20" = some 20 := by decide
  refine ⟨?_, ?_, ?_, ?_⟩
  · simp [handleDonateCoins, hC, hI, h20]
  · simp [handleDonateCoins, hC, hI, h20, creditCoins, hbal]
  · simp [handleDonateCoins, hC, hI, h20]
  · intro u hu
    simp [handleDonateCoins, hC, hI, h20, creditCoins, hu]

def stC7 : AppState :=
  { orders := [], patientOffers := [], products := [],
    coins := fun i => if i = "inst1" then some 0 else none,
    transactions := [] }

/-- C7 witness: the concrete donation scenario of spec §8.8. -/
theorem C7_witness :
    ("cust1" : String) ≠ "" ∧ stC7.coins "inst1" = some 0
    ∧ (handleDonateCoins stC7 "cust1" "inst1" "20").2 = none
    ∧ (handleDonateCoins stC7 "cust1" "inst1" "20").1.coins "inst1" = some 20 := by
  have h := C7_donation_credits_institution stC7 "cust1" "inst1"
    (by decide) (by decide) (by simp [stC7])
  exact ⟨by decide, by simp [stC7], h.1, h.2.1⟩

/-- C8: a donation request whose amount field is empty, does not parse as a
number, or parses to a non-positive number fails with ValidationError and
returns the state unchanged (no balance write, no ledger append). -/
theorem C8_donation_rejects_bad_amount (st : AppState) (C I amt : String) (a : Int) :
    (amt = "" → handleDonateCoins st C I amt = (st, some Err.ValidationError))
    ∧ (jsParseInt amt = none → handleDonateCoins st C I amt = (st, some Err.ValidationError))
    ∧ (jsParseInt amt = some a → a ≤ 0 →
        handleDonateCoins st C I amt = (st, some Err.ValidationError)) := by
  refine ⟨?_, ?_, ?_⟩
  · intro h
    simp [handleDonateCoins, h]
  · intro h
    by_cases hg : C = "" ∨ I = "" ∨ amt = ""
    · simp [handleDonateCoins, hg]
    · simp [handleDonateCoins, hg, h]
  · intro h hle
    by_cases hg : C = "" ∨ I = "" ∨ amt = ""
    · simp [handleDonateCoins, hg]
    · simp [handleDonateCoins, hg, h, hle]

def stC8 : AppState :=
  { orders := [], patientOffers := [], products := [],
    coins := fun i => if i = "inst1" then some 0 else none,
    transactions := [] }

/-- C8 witness: a non-numeric amount and a negative amount are both
rejected with ValidationError and leave the state unchanged. -/
theorem C8_witness :
    jsParseInt "abc" = none
    ∧ handleDonateCoins stC8 "cust1" "inst1" "abc" = (stC8, some Err.ValidationError)
    ∧ jsParseInt "-5" = some (-5) ∧ ((-5 : Int) ≤ 0)
    ∧ handleDonateCoins stC8 "cust1" "inst1" "-5" = (stC8, some Err.ValidationError) :=
  ⟨by decide,
   (C8_donation_rejects_bad_amount stC8 "cust1" "inst1" "abc" 0).2.1 (by decide),
   by decide, by decide,
   (C8_donation_rejects_bad_amount stC8 "cust1" "inst1" "-5" (-5)).2.2 (by decide) (by decide)⟩

/-- C9: minting a handoff token (customer QR or salesperson QR) never
changes the fulfillment state — record statuses, assigned-actor fields,
balances and ledger are all untouched — and repeated mints over the same
record state produce the same token content. -/
theorem C9_mint_is_pure_and_idempotent (st : AppState) (userId offerId : String)
    (item : AssignedItem) :
    (handleGenerateCustomerQr st userId item).2 = st
    ∧ (handleGenerateSalespersonQr st userId offerId).2 = st
    ∧ (handleGenerateCustomerQr (handleGenerateCustomerQr st userId item).2 userId item).1
        = (handleGenerateCustomerQr st userId item).1
    ∧ (handleGenerateSalespersonQr (handleGenerateSalespersonQr st userId offerId).2
          userId offerId).1
        = (handleGenerateSalespersonQr st userId offerId).1 :=
  ⟨rfl, rfl, rfl, rfl⟩

def ordC10 : Order :=
  { id := "ord1", productId := "prod1", productName := "Aspirin",
    customerId := "cust1", salespersonId := some "sp1",
    status := OrderStatus.in_delivery }

def stC10 : AppState :=
  { orders := [ordC10],
    patientOffers := [], products := [],
    coins := fun _ => none,
    transactions := [] }

/-- C10 counterexample: at the claimed scenario — the owning customer
confirms an `in_delivery` order with a matching token while the referenced
product is absent from the catalog — the order's status does not advance
to `delivered`: the status update itself throws on its undefined
`paymentConfirmed` field before any write (src/App.js:1091-1097 under
default `getFirestore()`), so the confirmation fails and the state is
entirely unchanged. -/
theorem C10_counterexample :
    findProduct stC10 "prod1" = none
    ∧ handleConfirmTransferAndPayment stC10 "cust1"
        { orderId := some "ord1", salespersonId := some "sp1" }
      = (stC10, some Err.UnsupportedFieldValue)
    ∧ orderStatus (handleConfirmTransferAndPayment stC10 "cust1"
        { orderId := some "ord1", salespersonId := some "sp1" }).1 "ord1"
      = some OrderStatus.in_delivery := by
  refine ⟨by decide, rfl, by decide⟩

/-- C10 amended: when the owning customer confirms an `in_delivery` order
with a token matching the assigned salesperson, the confirmation fails
before any write regardless of the referenced product: the status update
passes `paymentConfirmed: undefined` and the default-configured SDK throws
client-side, so the status does not advance, no coin balance is credited
and no Transaction is appended — the state is returned unchanged with the
store's rejected-write error; the `product && coinsAssigned > 0` guard
downstream (src/App.js:1102) is dead code. -/
theorem C10_amended_confirm_never_writes (st : AppState) (userId oid : String)
    (qr : QrData) (o : Order)
    (hqo : qr.orderId = some oid) (hne : oid ≠ "")
    (hfind : findUserOrder st userId oid = some o)
    (hstat : o.status = OrderStatus.in_delivery)
    (hsp : o.salespersonId = qr.salespersonId) :
    handleConfirmTransferAndPayment st userId qr
      = (st, some Err.UnsupportedFieldValue) := by
  have hcust : o.customerId = userId := findUserOrder_customerId st userId oid o hfind
  have htr : jsTruthy qr.orderId = true := by simp [jsTruthy, hqo, hne]
  have hgd : qr.orderId.getD "" = oid := by simp [hqo]
  simp [handleConfirmTransferAndPayment, htr, hgd, hfind, hcust, hstat, hsp]

/-- C10 witness: the amended theorem applied to the concrete
missing-product scenario. -/
theorem C10_witness :
    findUserOrder stC10 "cust1" "ord1" = some ordC10
    ∧ handleConfirmTransferAndPayment stC10 "cust1"
        { orderId := some "ord1", salespersonId := some "sp1" }
      = (stC10, some Err.UnsupportedFieldValue) :=
  ⟨by decide, C10_amended_confirm_never_writes stC10 "cust1" "ord1"
    { orderId := some "ord1", salespersonId := some "sp1" } ordC10
    rfl (by decide) (by decide) rfl rfl⟩

def ordC3 : Order :=
  { id := "ord3", productId := "prod3", productName := "Bandage",
    customerId := "cust3", salespersonId := some "sp3",
    status := OrderStatus.in_delivery }

def prodC3 : Product := { id := "prod3", name := "Bandage", coinsAssigned := 5 }

def stC3 : AppState :=
  { orders := [ordC3],
    patientOffers := [], products := [prodC3],
    coins := fun i => if i = "sp3" then some 7 else none,
    transactions := [] }

/-- C3 (code bug): the claimed happy path — the owning customer confirms an
`in_delivery` order assigned to S with a matching token, the referenced
product having `coinsAssigned = 5` — never completes in the program.  The
request passes every validation check and reaches the status `updateDoc`
(src/App.js:1091-1097), which always carries `paymentConfirmed: undefined`
and therefore throws under the app's default `getFirestore()`
configuration: no status write, no `coin_transfer` append, no balance
credit.  Evaluating the faithful embedding at the scenario input shows the
confirmation failing with the store's rejected-write error, the order
still `in_delivery`, the ledger and S's balance untouched. -/
theorem C3_claimed_delivery_never_happens :
    findProduct stC3 "prod3" = some prodC3
    ∧ prodC3.coinsAssigned = 5
    ∧ stC3.coins "sp3" = some 7
    ∧ handleConfirmTransferAndPayment stC3 "cust3"
        { orderId := some "ord3", salespersonId := some "sp3" }
      = (stC3, some Err.UnsupportedFieldValue)
    ∧ orderStatus (handleConfirmTransferAndPayment stC3 "cust3"
        { orderId := some "ord3", salespersonId := some "sp3" }).1 "ord3"
      = some OrderStatus.in_delivery
    ∧ (handleConfirmTransferAndPayment stC3 "cust3"
        { orderId := some "ord3", salespersonId := some "sp3" }).1.transactions = []
    ∧ (handleConfirmTransferAndPayment stC3 "cust3"
        { orderId := some "ord3", salespersonId := some "sp3" }).1.coins "sp3"
      = some 7 := by
  refine ⟨by decide, by decide, by simp [stC3], rfl, by decide, rfl, rfl⟩

def offC6 : PatientOffer :=
  { id := "ap6", patientId := "pat6", doctorId := "doc6", reason := "checkup",
    status := OfferStatus.assigned_to_salesperson, salespersonId := some "sp6" }

def stC6 : AppState :=
  { orders := [], patientOffers := [offC6], products := [],
    coins := fun i => if i = "sp6" then some 3 else none,
    transactions := [] }

/-- C6 (code bug): the claimed checkup completion — the owning patient
confirms an `assigned_to_salesperson` appointment with a matching token,
which should set `completed`, credit the fixed reward (checkupCoins = 50,
src/App.js:1122) and append one `checkup_payment` Transaction — never
completes in the program.  The validated request reaches the status
`updateDoc` (src/App.js:1091-1097), which carries
`cashReceived: undefined` for appointments and throws under the default
`getFirestore()` configuration: the appointment stays
`assigned_to_salesperson`, no credit and no ledger append occur. -/
theorem C6_claimed_completion_never_happens :
    findOffer stC6 "ap6" = some offC6
    ∧ stC6.coins "sp6" = some 3
    ∧ handleConfirmTransferAndPayment stC6 "pat6"
        { patientOfferId := some "ap6", salespersonId := some "sp6" }
      = (stC6, some Err.UnsupportedFieldValue)
    ∧ offerStatus (handleConfirmTransferAndPayment stC6 "pat6"
        { patientOfferId := some "ap6", salespersonId := some "sp6" }).1 "ap6"
      = some OfferStatus.assigned_to_salesperson
    ∧ (handleConfirmTransferAndPayment stC6 "pat6"
        { patientOfferId := some "ap6", salespersonId := some "sp6" }).1.transactions = []
    ∧ (handleConfirmTransferAndPayment stC6 "pat6"
        { patientOfferId := some "ap6", salespersonId := some "sp6" }).1.coins "sp6"
      = some 3 := by
  refine ⟨by decide, by simp [stC6], rfl, by decide, rfl, rfl⟩

def offC1 : PatientOffer :=
  { id := "ap1", patientId := "P1", doctorId := "D1", reason := "flu",
    status := OfferStatus.completed, salespersonId := some "S1" }

def stC1 : AppState :=
  { orders := [], patientOffers := [offC1], products := [],
    coins := fun _ => none,
    transactions := [] }

/-- C1 counterexample: the doctor-accept operation succeeds on an
Appointment whose current status is `completed`, not `pending`, resetting
it to `accepted` — `handleAcceptOffer` performs no status check, so the
claim that it succeeds only from `pending` (and that other transition
requests fail with InvalidState) is false on the accept edge. -/
theorem C1_counterexample :
    offerStatus stC1 "ap1" = some OfferStatus.completed
    ∧ (handleAcceptOffer stC1 "D1" "ap1").1.2 = none
    ∧ offerStatus (handleAcceptOffer stC1 "D1" "ap1").1.1 "ap1"
        = some OfferStatus.accepted := by
  refine ⟨by decide, by decide, by decide⟩

/-- C1 amended: the documented-source-status rule holds for the claim and
confirmation edges — a confirm request on an order not in `in_delivery`
(found in the requester's own orders collection) or an appointment not in
`assigned_to_salesperson` (by its patient), and a take request on an order
not in `pending_salesperson_pickup` or an appointment not in `accepted`,
each fail with InvalidState and leave the state unchanged.  The doctor-accept
operation, however, performs no status check: on any existing appointment
it succeeds and sets the status to `accepted` regardless of the current
status (the UI invokes it only on offers it lists as pending). -/
theorem C1_amended (st : AppState) (userId oid pid offerId : String) (qr : QrData)
    (o : Order) (a b : PatientOffer) :
    (qr.orderId = some oid → oid ≠ "" → findUserOrder st userId oid = some o →
      o.status ≠ OrderStatus.in_delivery →
      handleConfirmTransferAndPayment st userId qr = (st, some Err.InvalidState))
    ∧ (qr.orderId = none → qr.patientOfferId = some pid → pid ≠ "" →
      findOffer st pid = some a → a.patientId = userId →
      a.status ≠ OfferStatus.assigned_to_salesperson →
      handleConfirmTransferAndPayment st userId qr = (st, some Err.InvalidState))
    ∧ (qr.orderId = some oid → oid ≠ "" → findOrder st oid = some o →
      o.status ≠ OrderStatus.pending_salesperson_pickup →
      handleTakeOrderAppointment st userId qr = (st, some Err.InvalidState))
    ∧ (qr.orderId = none → qr.patientOfferId = some pid → pid ≠ "" →
      findOffer st pid = some a → a.status ≠ OfferStatus.accepted →
      handleTakeOrderAppointment st userId qr = (st, some Err.InvalidState))
    ∧ (findOffer st offerId = some b →
      (handleAcceptOffer st userId offerId).1.2 = none
      ∧ offerStatus (handleAcceptOffer st userId offerId).1.1 offerId
          = some OfferStatus.accepted) := by
  refine ⟨?_, ?_, ?_, ?_, ?_⟩
  · intro hqo hne hfind hstat
    have hcust : o.customerId = userId := findUserOrder_customerId st userId oid o hfind
    have htr : jsTruthy qr.orderId = true := by simp [jsTruthy, hqo, hne]
    have hgd : qr.orderId.getD "" = oid := by simp [hqo]
    simp [handleConfirmTransferAndPayment, htr, hgd, hfind, hcust, hstat]
  · intro hqo hqp hne hfind hpat hstat
    have htr : jsTruthy qr.orderId = false := by simp [jsTruthy, hqo]
    have htp : jsTruthy qr.patientOfferId = true := by simp [jsTruthy, hqp, hne]
    have hgd : qr.patientOfferId.getD "" = pid := by simp [hqp]
    simp [handleConfirmTransferAndPayment, htr, htp, hgd, hfind, hpat, hstat]
  · intro hqo hne hfind hstat
    have htr : jsTruthy qr.orderId = true := by simp [jsTruthy, hqo, hne]
    have hgd : qr.orderId.getD "" = oid := by simp [hqo]
    simp [handleTakeOrderAppointment, htr, hgd, hfind, hstat]
  · intro hqo hqp hne hfind hstat
    have htr : jsTruthy qr.orderId = false := by simp [jsTruthy, hqo]
    have htp : jsTruthy qr.patientOfferId = true := by simp [jsTruthy, hqp, hne]
    have hgd : qr.patientOfferId.getD "" = pid := by simp [hqp]
    simp [handleTakeOrderAppointment, htr, htp, hgd, hfind, hstat]
  · intro hb
    have hupd : findById PatientOffer.id (updateById PatientOffer.id st.patientOffers
          offerId fun x => { x with status := OfferStatus.accepted }) offerId
        = some { b with status := OfferStatus.accepted } := by
      rw [findById_updateById PatientOffer.id st.patientOffers offerId
        (fun x => { x with status := OfferStatus.accepted }) (fun _ => rfl),
        show findById PatientOffer.id st.patientOffers offerId = some b from hb]
      rfl
    have hb2 : findById PatientOffer.id st.patientOffers offerId = some b := hb
    exact ⟨by simp [handleAcceptOffer, hb],
      by simp [handleAcceptOffer, hb, hb2, offerStatus, findOffer, hupd]⟩

def ordC1w : Order :=
  { id := "o1", productId := "p1", productName := "Gauze",
    customerId := "cu", salespersonId := some "sp",
    status := OrderStatus.delivered }

def offC1w : PatientOffer :=
  { id := "a1", patientId := "pa", doctorId := "do", reason := "cough",
    status := OfferStatus.pending }

def stC1w : AppState :=
  { orders := [ordC1w], patientOffers := [offC1w], products := [],
    coins := fun _ => none,
    transactions := [] }

/-- C1 witness: concrete InvalidState failures on every confirm/take edge
(a delivered order, a still-pending appointment) and a concrete
unconditional accept. -/
theorem C1_witness :
    handleConfirmTransferAndPayment stC1w "cu"
        { orderId := some "o1", salespersonId := some "sp" }
      = (stC1w, some Err.InvalidState)
    ∧ handleConfirmTransferAndPayment stC1w "pa"
        { patientOfferId := some "a1", salespersonId := some "sp" }
      = (stC1w, some Err.InvalidState)
    ∧ handleTakeOrderAppointment stC1w "sp" { orderId := some "o1" }
      = (stC1w, some Err.InvalidState)
    ∧ handleTakeOrderAppointment stC1w "sp" { patientOfferId := some "a1" }
      = (stC1w, some Err.InvalidState)
    ∧ (handleAcceptOffer stC1w "do" "a1").1.2 = none := by
  refine ⟨?_, ?_, ?_, ?_, ?_⟩
  · exact (C1_amended stC1w "cu" "o1" "a1" "a1"
      { orderId := some "o1", salespersonId := some "sp" } ordC1w offC1w offC1w).1
      rfl (by decide) (by decide) (by decide)
  · exact (C1_amended stC1w "pa" "o1" "a1" "a1"
      { patientOfferId := some "a1", salespersonId := some "sp" } ordC1w offC1w offC1w).2.1
      rfl rfl (by decide) (by decide) rfl (by decide)
  · exact (C1_amended stC1w "sp" "o1" "a1" "a1"
      { orderId := some "o1" } ordC1w offC1w offC1w).2.2.1
      rfl (by decide) (by decide) (by decide)
  · exact (C1_amended stC1w "sp" "o1" "a1" "a1"
      { patientOfferId := some "a1" } ordC1w offC1w offC1w).2.2.2.1
      rfl rfl (by decide) (by decide) (by decide)
  · exact ((C1_amended stC1w "do" "o1" "a1" "a1"
      { patientOfferId := some "a1" } ordC1w offC1w offC1w).2.2.2.2 (by decide)).1

def offC2 : PatientOffer :=
  { id := "ap2", patientId := "P2", doctorId := "D2", reason := "rash",
    status := OfferStatus.pending }

def ordC2 : Order :=
  { id := "oc2", productId := "pc2", productName := "Salve",
    customerId := "cu2c", salespersonId := some "sp2c",
    status := OrderStatus.in_delivery }

def stC2 : AppState :=
  { orders := [ordC2], patientOffers := [offC2], products := [],
    coins := fun _ => none,
    transactions := [] }

/-- C2 counterexample: two concrete violations.  A doctor-accept request by
user "EVE", different from the appointment's doctorId "D2", succeeds —
`handleAcceptOffer` never compares the requester with the offer's
`doctorId`.  And a confirm request by non-owner "EVE" on an `in_delivery`
order, even with the correct salesperson token, fails with NotFound rather
than Unauthorized: the handler reads `users/EVE/orders` (src/App.js:1045),
where the document does not exist. -/
theorem C2_counterexample :
    (findOffer stC2 "ap2").map PatientOffer.doctorId = some "D2"
    ∧ ("EVE" : String) ≠ "D2"
    ∧ (handleAcceptOffer stC2 "EVE" "ap2").1.2 = none
    ∧ offerStatus (handleAcceptOffer stC2 "EVE" "ap2").1.1 "ap2"
        = some OfferStatus.accepted
    ∧ (findOrder stC2 "oc2").map Order.customerId = some "cu2c"
    ∧ handleConfirmTransferAndPayment stC2 "EVE"
        { orderId := some "oc2", salespersonId := some "sp2c" }
      = (stC2, some Err.NotFound)
    ∧ Err.NotFound ≠ Err.Unauthorized := by
  refine ⟨by decide, by decide, by decide, by decide, by decide, rfl, by decide⟩

/-- C2 amended: for the appointment confirmation edge, a requester other
than the owning patient fails with Unauthorized and the state is
unchanged, regardless of the token presented.  For the order confirmation
edge the lookup itself is requester-scoped (`users/{userId}/orders`), so a
requester who owns no order with the referenced id fails with NotFound —
the in-handler `customerId` check that would produce Unauthorized is
unreachable for app-created orders.  The doctor-accept handler performs no
identity check at all: a request by any user id succeeds on any existing
appointment (the UI restricts invocation to the named doctor's own pending
offers). -/
theorem C2_amended (st : AppState) (userId oid pid offerId : String) (qr : QrData)
    (a b : PatientOffer) :
    (qr.orderId = some oid → oid ≠ "" →
      (∀ o ∈ st.orders, o.id = oid → o.customerId ≠ userId) →
      handleConfirmTransferAndPayment st userId qr = (st, some Err.NotFound))
    ∧ (qr.orderId = none → qr.patientOfferId = some pid → pid ≠ "" →
      findOffer st pid = some a → a.patientId ≠ userId →
      handleConfirmTransferAndPayment st userId qr = (st, some Err.Unauthorized))
    ∧ (findOffer st offerId = some b →
      (handleAcceptOffer st userId offerId).1.2 = none) := by
  refine ⟨?_, ?_, ?_⟩
  · intro hqo hne hnotmine
    have htr : jsTruthy qr.orderId = true := by simp [jsTruthy, hqo, hne]
    have hgd : qr.orderId.getD "" = oid := by simp [hqo]
    have hmiss : findUserOrder st userId oid = none :=
      findUserOrder_eq_none st userId oid hnotmine
    simp [handleConfirmTransferAndPayment, htr, hgd, hmiss]
  · intro hqo hqp hne hfind hpat
    have htr : jsTruthy qr.orderId = false := by simp [jsTruthy, hqo]
    have htp : jsTruthy qr.patientOfferId = true := by simp [jsTruthy, hqp, hne]
    have hgd : qr.patientOfferId.getD "" = pid := by simp [hqp]
    simp [handleConfirmTransferAndPayment, htr, htp, hgd, hfind, hpat]
  · intro hb
    simp [handleAcceptOffer, hb]

def ordC2w : Order :=
  { id := "o2", productId := "p2", productName := "Mask",
    customerId := "cu2", salespersonId := some "sp2",
    status := OrderStatus.in_delivery }

def offC2w : PatientOffer :=
  { id := "a2", patientId := "pa2", doctorId := "do2", reason := "fever",
    status := OfferStatus.assigned_to_salesperson, salespersonId := some "sp2" }

def stC2w : AppState :=
  { orders := [ordC2w], patientOffers := [offC2w], products := [],
    coins := fun _ => none,
    transactions := [] }

/-- C2 witness: concrete NotFound for a non-owner confirming an order,
Unauthorized for a non-patient confirming an appointment, and the
identity-check-free accept. -/
theorem C2_witness :
    handleConfirmTransferAndPayment stC2w "EVE"
        { orderId := some "o2", salespersonId := some "sp2" }
      = (stC2w, some Err.NotFound)
    ∧ handleConfirmTransferAndPayment stC2w "EVE"
        { patientOfferId := some "a2", salespersonId := some "sp2" }
      = (stC2w, some Err.Unauthorized)
    ∧ (handleAcceptOffer stC2w "EVE" "a2").1.2 = none := by
  refine ⟨?_, ?_, ?_⟩
  · exact (C2_amended stC2w "EVE" "o2" "a2" "a2"
      { orderId := some "o2", salespersonId := some "sp2" } offC2w offC2w).1
      rfl (by decide) (by decide)
  · exact (C2_amended stC2w "EVE" "o2" "a2" "a2"
      { patientOfferId := some "a2", salespersonId := some "sp2" } offC2w offC2w).2.1
      rfl rfl (by decide) (by decide) (by decide)
  · exact (C2_amended stC2w "EVE" "o2" "a2" "a2"
      { patientOfferId := some "a2" } offC2w offC2w).2.2 (by decide)

def ordC4 : Order :=
  { id := "o4", productId := "p4", productName := "Syrup",
    customerId := "cu4", salespersonId := some "S1",
    status := OrderStatus.in_delivery }

def stC4 : AppState :=
  { orders := [ordC4], patientOffers := [], products := [],
    coins := fun _ => none,
    transactions := [] }

/-- C4 counterexample: a claim on an order whose `salespersonId` is already
set (the normal outcome of a successful earlier claim, whose status is then
`in_delivery`) fails with InvalidState, not AlreadyAssigned — the status
check at src/App.js:1551 runs before the `salespersonId` check at
src/App.js:1559, so the claim as stated is false. -/
theorem C4_counterexample :
    (findOrder stC4 "o4").map Order.salespersonId = some (some "S1")
    ∧ (handleTakeOrderAppointment stC4 "S2" { orderId := some "o4" }).2
        = some Err.InvalidState
    ∧ (handleTakeOrderAppointment stC4 "S2" { orderId := some "o4" }).1 = stC4
    ∧ Err.InvalidState ≠ Err.AlreadyAssigned := by
  refine ⟨by decide, by decide, rfl, by decide⟩

/-- C4 amended: a claim on a record whose `salespersonId` is already set
fails and leaves the state unchanged — with AlreadyAssigned when the
record is still in the claim edge's source status, and with InvalidState
when its status has advanced (as it has after any successful claim, which
writes both fields together).  Consequently, of two sequential claim
attempts on the same initially unassigned record, at most one succeeds:
the second fails with InvalidState and changes nothing. -/
theorem C4_amended (st : AppState) (userId S1 S2 oid pid : String) (qr : QrData)
    (o : Order) (a : PatientOffer) :
    (qr.orderId = some oid → oid ≠ "" → findOrder st oid = some o →
      o.status = OrderStatus.pending_salesperson_pickup →
      jsTruthy o.salespersonId = true →
      handleTakeOrderAppointment st userId qr = (st, some Err.AlreadyAssigned))
    ∧ (qr.orderId = some oid → oid ≠ "" → findOrder st oid = some o →
      jsTruthy o.salespersonId = true →
      o.status ≠ OrderStatus.pending_salesperson_pickup →
      handleTakeOrderAppointment st userId qr = (st, some Err.InvalidState))
    ∧ (qr.orderId = none → qr.patientOfferId = some pid → pid ≠ "" →
      findOffer st pid = some a → a.status = OfferStatus.accepted →
      jsTruthy a.salespersonId = true →
      handleTakeOrderAppointment st userId qr = (st, some Err.AlreadyAssigned))
    ∧ (qr.orderId = none → qr.patientOfferId = some pid → pid ≠ "" →
      findOffer st pid = some a → jsTruthy a.salespersonId = true →
      a.status ≠ OfferStatus.accepted →
      handleTakeOrderAppointment st userId qr = (st, some Err.InvalidState))
    ∧ (qr.orderId = some oid → oid ≠ "" → findOrder st oid = some o →
      o.status = OrderStatus.pending_salesperson_pickup →
      jsTruthy o.salespersonId = false →
      (handleTakeOrderAppointment st S1 qr).2 = none
      ∧ handleTakeOrderAppointment (handleTakeOrderAppointment st S1 qr).1 S2 qr
          = ((handleTakeOrderAppointment st S1 qr).1, some Err.InvalidState))
    ∧ (qr.orderId = none → qr.patientOfferId = some pid → pid ≠ "" →
      findOffer st pid = some a → a.status = OfferStatus.accepted →
      jsTruthy a.salespersonId = false →
      (handleTakeOrderAppointment st S1 qr).2 = none
      ∧ handleTakeOrderAppointment (handleTakeOrderAppointment st S1 qr).1 S2 qr
          = ((handleTakeOrderAppointment st S1 qr).1, some Err.InvalidState)) := by
  refine ⟨?_, ?_, ?_, ?_, ?_, ?_⟩
  · intro hqo hne hfind hstat hsp
    have htr : jsTruthy qr.orderId = true := by simp [jsTruthy, hqo, hne]
    have hgd : qr.orderId.getD "" = oid := by simp [hqo]
    simp [handleTakeOrderAppointment, htr, hgd, hfind, hstat, hsp]
  · intro hqo hne hfind hsp hstat
    have htr : jsTruthy qr.orderId = true := by simp [jsTruthy, hqo, hne]
    have hgd : qr.orderId.getD "" = oid := by simp [hqo]
    simp [handleTakeOrderAppointment, htr, hgd, hfind, hstat]
  · intro hqo hqp hne hfind hstat hsp
    have htr : jsTruthy qr.orderId = false := by simp [jsTruthy, hqo]
    have htp : jsTruthy qr.patientOfferId = true := by simp [jsTruthy, hqp, hne]
    have hgd : qr.patientOfferId.getD "" = pid := by simp [hqp]
    simp [handleTakeOrderAppointment, htr, htp, hgd, hfind, hstat, hsp]
  · intro hqo hqp hne hfind hsp hstat
    have htr : jsTruthy qr.orderId = false := by simp [jsTruthy, hqo]
    have htp : jsTruthy qr.patientOfferId = true := by simp [jsTruthy, hqp, hne]
    have hgd : qr.patientOfferId.getD "" = pid := by simp [hqp]
    simp [handleTakeOrderAppointment, htr, htp, hgd, hfind, hstat]
  · intro hqo hne hfind hstat hsp
    have htr : jsTruthy qr.orderId = true := by simp [jsTruthy, hqo, hne]
    have hgd : qr.orderId.getD "" = oid := by simp [hqo]
    have hupd : findById Order.id (updateById Order.id st.orders oid fun x =>
          { x with salespersonId := some S1, status := OrderStatus.in_delivery }) oid
        = some { o with salespersonId := some S1, status := OrderStatus.in_delivery } := by
      rw [findById_updateById Order.id st.orders oid
        (fun x => { x with salespersonId := some S1, status := OrderStatus.in_delivery })
        (fun _ => rfl),
        show findById Order.id st.orders oid = some o from hfind]
      rfl
    have hfind2 : findById Order.id st.orders oid = some o := hfind
    constructor
    · simp [handleTakeOrderAppointment, htr, hgd, hfind, hstat, hsp]
    · simp [handleTakeOrderAppointment, htr, hgd, hfind, hfind2, hstat, hsp, findOrder,
        hupd]
  · intro hqo hqp hne hfind hstat hsp
    have htr : jsTruthy qr.orderId = false := by simp [jsTruthy, hqo]
    have htp : jsTruthy qr.patientOfferId = true := by simp [jsTruthy, hqp, hne]
    have hgd : qr.patientOfferId.getD "" = pid := by simp [hqp]
    have hupd : findById PatientOffer.id (updateById PatientOffer.id st.patientOffers pid
          fun x => { x with salespersonId := some S1,
                            status := OfferStatus.assigned_to_salesperson }) pid
        = some { a with salespersonId := some S1,
                        status := OfferStatus.assigned_to_salesperson } := by
      rw [findById_updateById PatientOffer.id st.patientOffers pid
        (fun x => { x with salespersonId := some S1,
                           status := OfferStatus.assigned_to_salesperson })
        (fun _ => rfl),
        show findById PatientOffer.id st.patientOffers pid = some a from hfind]
      rfl
    have hfind2 : findById PatientOffer.id st.patientOffers pid = some a := hfind
    constructor
    · simp [handleTakeOrderAppointment, htr, htp, hgd, hfind, hstat, hsp]
    · simp [handleTakeOrderAppointment, htr, htp, hgd, hfind, hfind2, hstat, hsp,
        findOffer, hupd]

def ordC4w : Order :=
  { id := "o4w", productId := "p4w", productName := "Tonic",
    customerId := "cu4w", salespersonId := none,
    status := OrderStatus.pending_salesperson_pickup }

def stC4w : AppState :=
  { orders := [ordC4w], patientOffers := [], products := [],
    coins := fun _ => none,
    transactions := [] }

/-- C4 witness: of two sequential claims by S1 then S2 on an initially
unassigned pending order, the first succeeds and the second fails with
InvalidState leaving the state unchanged; and a record that is still in
the source status with `salespersonId` set fails with AlreadyAssigned. -/
theorem C4_witness :
    (handleTakeOrderAppointment stC4w "S1" { orderId := some "o4w" }).2 = none
    ∧ handleTakeOrderAppointment
        (handleTakeOrderAppointment stC4w "S1" { orderId := some "o4w" }).1 "S2"
        { orderId := some "o4w" }
      = ((handleTakeOrderAppointment stC4w "S1" { orderId := some "o4w" }).1,
         some Err.InvalidState)
    ∧ handleTakeOrderAppointment
        { stC4w with orders := [{ ordC4w with salespersonId := some "S1" }] } "S2"
        { orderId := some "o4w" }
      = ({ stC4w with orders := [{ ordC4w with salespersonId := some "S1" }] },
         some Err.AlreadyAssigned) := by
  have h5 := (C4_amended stC4w "S2" "S1" "S2" "o4w" "x" { orderId := some "o4w" }
    ordC4w { id := "x", patientId := "x", doctorId := "x", reason := "x",
             status := OfferStatus.pending }).2.2.2.2.1
    rfl (by decide) (by decide) rfl (by decide)
  have h1 := (C4_amended { stC4w with orders := [{ ordC4w with salespersonId := some "S1" }] }
    "S2" "S1" "S2" "o4w" "x" { orderId := some "o4w" }
    { ordC4w with salespersonId := some "S1" }
    { id := "x", patientId := "x", doctorId := "x", reason := "x",
      status := OfferStatus.pending }).1
    rfl (by decide) (by decide) rfl (by decide)
  exact ⟨h5.1, h5.2, h1⟩

def ordC5 : Order :=
  { id := "o5", productId := "p5", productName := "Vitamin",
    customerId := "cu5", salespersonId := some "sp5",
    status := OrderStatus.in_delivery }

def prodC5 : Product := { id := "p5", name := "Vitamin", coinsAssigned := 4 }

def stC5 : AppState :=
  { orders := [ordC5], patientOffers := [], products := [prodC5],
    coins := fun i => if i = "sp5" then some 1 else none,
    transactions := [] }

def ordC5d : Order := { ordC5 with status := OrderStatus.delivered }

def stC5d : AppState := { stC5 with orders := [ordC5d] }

/-- C5 (code bug): the claim presumes a confirmation can succeed and
asserts that replaying its token then fails with InvalidState.  In the
program no confirmation ever succeeds: the first confirmation itself
throws in the status `updateDoc` on an undefined field value
(src/App.js:1091-1097 under default `getFirestore()`), so no record ever
reaches `delivered`/`completed` through this handler and no token is ever
consumed.  The evaluation shows the would-be first confirmation failing
with the store's rejected-write error and the state unchanged; the status
guard that would reject a replay is nonetheless real — on an order already
`delivered`, the same token fails with InvalidState. -/
theorem C5_no_successful_confirmation_to_replay :
    handleConfirmTransferAndPayment stC5 "cu5"
        { orderId := some "o5", salespersonId := some "sp5" }
      = (stC5, some Err.UnsupportedFieldValue)
    ∧ handleConfirmTransferAndPayment stC5d "cu5"
        { orderId := some "o5", salespersonId := some "sp5" }
      = (stC5d, some Err.InvalidState) := by
  refine ⟨rfl, rfl⟩

end Mediquick
